import Mathlib

set_option maxRecDepth 16000

/-!
# Verification of the posthook webhook signature subsystem

Shallow embedding of `src/posthook/_resources/_signatures.py` and the parts of
`src/posthook/_models.py` it uses, together with models of the Python standard
library primitives the code calls (`hashlib.sha256`, `hmac`, `json.loads`,
`int()`, `str.split`, `str.lower`, `datetime.fromisoformat`).  Python strings
are Lean `String`s, Python `bytes` are `List Nat` (each element a byte value),
Python `int` is `Int`, and machine-word arithmetic inside SHA-256 is `Nat`
arithmetic reduced modulo `2^32` explicitly.
-/

namespace Posthook

/-! ## UTF-8 encoding and decoding (model of `str.encode("utf-8")` / `bytes.decode`) -/

/-- UTF-8 encoding of a single code point, as byte values.  Branches follow the
standard 1/2/3/4-byte ranges; `/` and `%` by powers of two stand for the shifts
and masks of the usual bit-level description. -/
def utf8EncodeChar (c : Char) : List Nat :=
  let v := c.toNat
  if v < 128 then [v]
  else if v < 2048 then [192 + v / 64, 128 + v % 64]
  else if v < 65536 then [224 + v / 4096, 128 + v / 64 % 64, 128 + v % 64]
  else [240 + v / 262144, 128 + v / 4096 % 64, 128 + v / 64 % 64, 128 + v % 64]

/-- Model of Python `s.encode("utf-8")`. -/
def utf8Encode (s : String) : List Nat :=
  s.data.flatMap utf8EncodeChar

/-- Is a byte a UTF-8 continuation byte? -/
def utf8Cont (b : Nat) : Bool := 128 ≤ b && b < 192

/-- Model of Python `bytes.decode("utf-8")`: strict UTF-8 decoding, rejecting
overlong forms, surrogates and out-of-range sequences.  Returns `none` where
Python raises `UnicodeDecodeError`. -/
def utf8Decode : List Nat → Option (List Char)
  | [] => some []
  | b0 :: rest =>
    if b0 < 128 then (utf8Decode rest).map (Char.ofNat b0 :: ·)
    else if b0 < 194 then none
    else if b0 < 224 then
      match rest with
      | b1 :: rest2 =>
        if utf8Cont b1 then
          (utf8Decode rest2).map (Char.ofNat ((b0 - 192) * 64 + (b1 - 128)) :: ·)
        else none
      | _ => none
    else if b0 < 240 then
      match rest with
      | b1 :: b2 :: rest2 =>
        let okB1 : Bool :=
          if b0 = 224 then 160 ≤ b1 && b1 < 192
          else if b0 = 237 then 128 ≤ b1 && b1 < 160
          else utf8Cont b1
        if okB1 && utf8Cont b2 then
          (utf8Decode rest2).map
            (Char.ofNat ((b0 - 224) * 4096 + (b1 - 128) * 64 + (b2 - 128)) :: ·)
        else none
      | _ => none
    else if b0 < 245 then
      match rest with
      | b1 :: b2 :: b3 :: rest2 =>
        let okB1 : Bool :=
          if b0 = 240 then 144 ≤ b1 && b1 < 192
          else if b0 = 244 then 128 ≤ b1 && b1 < 144
          else utf8Cont b1
        if okB1 && utf8Cont b2 && utf8Cont b3 then
          (utf8Decode rest2).map
            (Char.ofNat ((b0 - 240) * 262144 + (b1 - 128) * 4096 +
              (b2 - 128) * 64 + (b3 - 128)) :: ·)
        else none
      | _ => none
    else none

/-! ## SHA-256 (model of `hashlib.sha256`, per FIPS 180-4) -/

/-- Truncate to a 32-bit word. -/
def w32 (n : Nat) : Nat := n % 4294967296

/-- 32-bit addition. -/
def add32 (a b : Nat) : Nat := (a + b) % 4294967296

/-- 32-bit right rotation (input assumed `< 2^32`). -/
def rotr32 (n x : Nat) : Nat := (x >>> n) ||| ((x <<< (32 - n)) % 4294967296)

/-- 32-bit complement. -/
def not32 (x : Nat) : Nat := x ^^^ 4294967295

def sigma0 (x : Nat) : Nat := rotr32 7 x ^^^ rotr32 18 x ^^^ (x >>> 3)
def sigma1 (x : Nat) : Nat := rotr32 17 x ^^^ rotr32 19 x ^^^ (x >>> 10)
def bigSigma0 (x : Nat) : Nat := rotr32 2 x ^^^ rotr32 13 x ^^^ rotr32 22 x
def bigSigma1 (x : Nat) : Nat := rotr32 6 x ^^^ rotr32 11 x ^^^ rotr32 25 x
def chFn (x y z : Nat) : Nat := (x &&& y) ^^^ (not32 x &&& z)
def majFn (x y z : Nat) : Nat := (x &&& y) ^^^ (x &&& z) ^^^ (y &&& z)

/-- The 64 SHA-256 round constants (FIPS 180-4, in decimal). -/
def sha256K : List Nat :=
  [1116352408, 1899447441, 3049323471, 3921009573, 961987163,
   1508970993, 2453635748, 2870763221, 3624381080, 310598401,
   607225278, 1426881987, 1925078388, 2162078206, 2614888103,
   3248222580, 3835390401, 4022224774, 264347078, 604807628,
   770255983, 1249150122, 1555081692, 1996064986, 2554220882,
   2821834349, 2952996808, 3210313671, 3336571891, 3584528711,
   113926993, 338241895, 666307205, 773529912, 1294757372,
   1396182291, 1695183700, 1986661051, 2177026350, 2456956037,
   2730485921, 2820302411, 3259730800, 3345764771, 3516065817,
   3600352804, 4094571909, 275423344, 430227734, 506948616,
   659060556, 883997877, 958139571, 1322822218, 1537002063,
   1747873779, 1955562222, 2024104815, 2227730452, 2361852424,
   2428436474, 2756734187, 3204031479, 3329325298]

/-- SHA-256 working state: eight 32-bit words. -/
structure Hash8 where
  h0 : Nat
  h1 : Nat
  h2 : Nat
  h3 : Nat
  h4 : Nat
  h5 : Nat
  h6 : Nat
  h7 : Nat
  deriving Repr, DecidableEq

/-- SHA-256 initial hash value (FIPS 180-4, in decimal). -/
def sha256H0 : Hash8 :=
  ⟨1779033703, 3144134277, 1013904242, 2773480762,
   1359893119, 2600822924, 528734635, 1541459225⟩

/-- Group bytes four at a time into big-endian 32-bit words. -/
def bytesToWords : List Nat → List Nat
  | a :: b :: c :: d :: rest =>
    (a * 16777216 + b * 65536 + c * 256 + d) :: bytesToWords rest
  | _ => []

/-- Extend a 16-word block to the 64-word message schedule. -/
def sha256Schedule (w16 : List Nat) : List Nat :=
  (List.range 48).foldl
    (fun w _ =>
      let n := w.length
      w ++ [add32 (add32 (sigma1 (w.getD (n - 2) 0)) (w.getD (n - 7) 0))
              (add32 (sigma0 (w.getD (n - 15) 0)) (w.getD (n - 16) 0))])
    w16

/-- One round of the SHA-256 compression function. -/
def sha256Round (st : Hash8) (wk : Nat × Nat) : Hash8 :=
  let t1 := add32 st.h7 (add32 (bigSigma1 st.h4)
    (add32 (chFn st.h4 st.h5 st.h6) (add32 wk.2 wk.1)))
  let t2 := add32 (bigSigma0 st.h0) (majFn st.h0 st.h1 st.h2)
  ⟨add32 t1 t2, st.h0, st.h1, st.h2, add32 st.h3 t1, st.h4, st.h5, st.h6⟩

/-- Compress one 64-byte block into the hash state. -/
def sha256Compress (st : Hash8) (block : List Nat) : Hash8 :=
  let w := sha256Schedule (bytesToWords block)
  let r := (w.zip sha256K).foldl sha256Round st
  ⟨add32 st.h0 r.h0, add32 st.h1 r.h1, add32 st.h2 r.h2, add32 st.h3 r.h3,
   add32 st.h4 r.h4, add32 st.h5 r.h5, add32 st.h6 r.h6, add32 st.h7 r.h7⟩

/-- SHA-256 padding: `0x80`, zeros to 56 mod 64, then the bit length as eight
big-endian bytes. -/
def sha256Pad (msg : List Nat) : List Nat :=
  let len := msg.length
  let zeros := (119 - len % 64) % 64
  let bitLen := 8 * len
  msg ++ [128] ++ List.replicate zeros 0 ++
    [bitLen / 72057594037927936 % 256, bitLen / 281474976710656 % 256,
     bitLen / 1099511627776 % 256, bitLen / 4294967296 % 256,
     bitLen / 16777216 % 256, bitLen / 65536 % 256,
     bitLen / 256 % 256, bitLen % 256]

/-- Split into 64-byte blocks; `fuel` bounds the recursion and is instantiated
with the list length. -/
def chunk64 (fuel : Nat) (l : List Nat) : List (List Nat) :=
  match fuel, l with
  | _, [] => []
  | 0, _ => []
  | f + 1, l => l.take 64 :: chunk64 f (l.drop 64)

/-- Serialize the final state as 32 big-endian bytes. -/
def hash8Bytes (st : Hash8) : List Nat :=
  [st.h0 / 16777216 % 256, st.h0 / 65536 % 256, st.h0 / 256 % 256, st.h0 % 256,
   st.h1 / 16777216 % 256, st.h1 / 65536 % 256, st.h1 / 256 % 256, st.h1 % 256,
   st.h2 / 16777216 % 256, st.h2 / 65536 % 256, st.h2 / 256 % 256, st.h2 % 256,
   st.h3 / 16777216 % 256, st.h3 / 65536 % 256, st.h3 / 256 % 256, st.h3 % 256,
   st.h4 / 16777216 % 256, st.h4 / 65536 % 256, st.h4 / 256 % 256, st.h4 % 256,
   st.h5 / 16777216 % 256, st.h5 / 65536 % 256, st.h5 / 256 % 256, st.h5 % 256,
   st.h6 / 16777216 % 256, st.h6 / 65536 % 256, st.h6 / 256 % 256, st.h6 % 256,
   st.h7 / 16777216 % 256, st.h7 / 65536 % 256, st.h7 / 256 % 256, st.h7 % 256]

/-- SHA-256 of a byte string, as 32 bytes. -/
def sha256 (msg : List Nat) : List Nat :=
  let padded := sha256Pad msg
  hash8Bytes ((chunk64 padded.length padded).foldl sha256Compress sha256H0)

/-! ## HMAC-SHA256 (model of the `hmac` module, per RFC 2104) -/

/-- HMAC-SHA256 over complete input. -/
def hmacSha256 (key msg : List Nat) : List Nat :=
  let k0 := if 64 < key.length then sha256 key else key
  let k1 := k0 ++ List.replicate (64 - k0.length) 0
  let ipadded := k1.map (fun b => b ^^^ 54)
  let opadded := k1.map (fun b => b ^^^ 92)
  sha256 (opadded ++ sha256 (ipadded ++ msg))

/-- Lowercase hex digit for a value `< 16`. -/
def hexDigit (n : Nat) : Char :=
  if n < 10 then Char.ofNat (48 + n) else Char.ofNat (87 + n)

/-- Lowercase hexadecimal rendering of a byte string (model of `.hexdigest()`
output formatting). -/
def hexOfBytes (bs : List Nat) : String :=
  String.mk (bs.flatMap (fun b => [hexDigit (b / 16), hexDigit (b % 16)]))

/-- Model of the incremental `hmac.new(...)` object: the key plus the bytes fed
so far. -/
structure HmacState where
  key : List Nat
  acc : List Nat

/-- `hmac.new(key, digestmod=hashlib.sha256)`. -/
def hmacNew (key : List Nat) : HmacState := ⟨key, []⟩

/-- `mac.update(data)`: incremental hashing accumulates the stream. -/
def HmacState.update (m : HmacState) (data : List Nat) : HmacState :=
  ⟨m.key, m.acc ++ data⟩

/-- `mac.hexdigest()`. -/
def HmacState.hexdigest (m : HmacState) : String :=
  hexOfBytes (hmacSha256 m.key m.acc)

/-! ## `_compute_signature` and `_safe_compare`
(from `src/posthook/_resources/_signatures.py`) -/

/-- `_compute_signature(key, timestamp, body_bytes)`: HMAC-SHA256 signature
`v1,<hex>`, built with incremental `mac.update` exactly as in the source. -/
def compute_signature (key : String) (timestamp : Int) (body_bytes : List Nat) :
    String :=
  let mac := hmacNew (utf8Encode key)
  let mac := mac.update (utf8Encode (toString timestamp ++ "."))
  let mac := mac.update body_bytes
  "v1," ++ mac.hexdigest

/-- `_safe_compare(a, b)`: `hmac.compare_digest(a.encode(), b.encode())`, i.e.
equality of the UTF-8 encodings (constant-time in Python; timing is not
modelled). -/
def safe_compare (a b : String) : Bool :=
  utf8Encode a == utf8Encode b

/-! ## Models of Python string primitives -/

/-- ASCII lowercasing of one character (model of `str.lower` restricted to the
ASCII range; header names in this code base are ASCII). -/
def asciiLowerChar (c : Char) : Char :=
  if 65 ≤ c.toNat && c.toNat ≤ 90 then Char.ofNat (c.toNat + 32) else c

/-- Model of `str.lower` (ASCII range). -/
def asciiLower (s : String) : String :=
  String.mk (s.data.map asciiLowerChar)

/-- The whitespace characters stripped by Python `int()` / `str.strip()`
(ASCII range: space, tab, newline, carriage return, vertical tab, form feed). -/
def isPyWs (c : Char) : Bool :=
  c = ' ' || c = '\t' || c = '\n' || c = '\r' || c.toNat = 11 || c.toNat = 12

/-- Strip leading and trailing whitespace from a character list. -/
def pyStripChars (l : List Char) : List Char :=
  ((l.dropWhile isPyWs).reverse.dropWhile isPyWs).reverse

/-- Decimal digit value of a character, if it is `0`-`9`. -/
def digitVal (c : Char) : Option Nat :=
  if 48 ≤ c.toNat && c.toNat ≤ 57 then some (c.toNat - 48) else none

/-- Continue parsing a decimal literal: digits, with single underscores allowed
between digits (Python 3.6+ `int()` grammar). -/
def pyIntLoop (acc : Nat) : List Char → Option Nat
  | [] => some acc
  | '_' :: c :: rest =>
    match digitVal c with
    | some d => pyIntLoop (acc * 10 + d) rest
    | none => none
  | ['_'] => none
  | c :: rest =>
    match digitVal c with
    | some d => pyIntLoop (acc * 10 + d) rest
    | none => none

/-- A nonempty decimal digit sequence (underscores between digits allowed). -/
def pyIntDigits : List Char → Option Nat
  | [] => none
  | c :: rest =>
    match digitVal c with
    | some d => pyIntLoop d rest
    | none => none

/-- Model of Python `int(s)` for base-10 strings: optional surrounding
whitespace, optional sign, then ASCII digits (with `_` separators).
`none` models `ValueError`.  Non-ASCII digit support is out of scope. -/
def pyInt (s : String) : Option Int :=
  match pyStripChars s.data with
  | '+' :: rest => (pyIntDigits rest).map (fun n => (n : Int))
  | '-' :: rest => (pyIntDigits rest).map (fun n => -(n : Int))
  | rest => (pyIntDigits rest).map (fun n => (n : Int))

/-- Split a character list on each single space character, keeping empty
segments (model of Python `s.split(" ")`). -/
def splitOnSpace : List Char → List (List Char)
  | [] => [[]]
  | c :: rest =>
    if c = ' ' then [] :: splitOnSpace rest
    else
      match splitOnSpace rest with
      | [] => [[c]]
      | g :: gs => (c :: g) :: gs

/-- Model of Python `s.split(" ")`. -/
def pySplitSpace (s : String) : List String :=
  (splitOnSpace s.data).map String.mk

/-! ## JSON values and a model of `json.loads` -/

/-- Decoded JSON values (results of `json.loads`).  Numbers keep their source
lexeme: no claim inspects numeric values, and the lexeme determines them.
Objects are association lists in insertion order with unique keys (Python
`dict`). -/
inductive Json where
  | null : Json
  | bool (b : Bool) : Json
  | num (raw : String) : Json
  | str (s : String) : Json
  | arr (items : List Json) : Json
  | obj (fields : List (String × Json)) : Json

/-- JSON whitespace (space, tab, newline, carriage return). -/
def isJsonWs (c : Char) : Bool :=
  c = ' ' || c = '\t' || c = '\n' || c = '\r'

/-- Skip JSON whitespace. -/
def skipJsonWs (l : List Char) : List Char := l.dropWhile isJsonWs

/-- Hexadecimal digit value (for `\u` escapes). -/
def hexVal (c : Char) : Option Nat :=
  if 48 ≤ c.toNat && c.toNat ≤ 57 then some (c.toNat - 48)
  else if 97 ≤ c.toNat && c.toNat ≤ 102 then some (c.toNat - 87)
  else if 65 ≤ c.toNat && c.toNat ≤ 70 then some (c.toNat - 55)
  else none

/-- Parse a JSON string body (after the opening quote), handling escapes.
Lone `\u` surrogates are rejected (a Lean `Char` cannot hold them; Python
would accept them — out of the modelled scope). -/
def parseJStr (fuel : Nat) (acc : List Char) (l : List Char) :
    Option (String × List Char) :=
  match fuel, l with
  | 0, _ => none
  | _, [] => none
  | f + 1, c :: rest =>
    if c = '"' then some (String.mk acc.reverse, rest)
    else if c = '\\' then
      match rest with
      | [] => none
      | e :: rest2 =>
        if e = '"' then parseJStr f ('"' :: acc) rest2
        else if e = '\\' then parseJStr f ('\\' :: acc) rest2
        else if e = '/' then parseJStr f ('/' :: acc) rest2
        else if e = 'b' then parseJStr f (Char.ofNat 8 :: acc) rest2
        else if e = 'f' then parseJStr f (Char.ofNat 12 :: acc) rest2
        else if e = 'n' then parseJStr f ('\n' :: acc) rest2
        else if e = 'r' then parseJStr f ('\r' :: acc) rest2
        else if e = 't' then parseJStr f ('\t' :: acc) rest2
        else if e = 'u' then
          match rest2 with
          | h1 :: h2 :: h3 :: h4 :: rest3 =>
            match hexVal h1, hexVal h2, hexVal h3, hexVal h4 with
            | some v1, some v2, some v3, some v4 =>
              let n := v1 * 4096 + v2 * 256 + v3 * 16 + v4
              if n < 55296 || 57343 < n then
                if n < 65536 then parseJStr f (Char.ofNat n :: acc) rest3
                else none
              else if n < 56320 then
                match rest3 with
                | '\\' :: 'u' :: g1 :: g2 :: g3 :: g4 :: rest4 =>
                  match hexVal g1, hexVal g2, hexVal g3, hexVal g4 with
                  | some u1, some u2, some u3, some u4 =>
                    let m := u1 * 4096 + u2 * 256 + u3 * 16 + u4
                    if 56320 ≤ m && m ≤ 57343 then
                      parseJStr f
                        (Char.ofNat (65536 + (n - 55296) * 1024 + (m - 56320))
                          :: acc) rest4
                    else none
                  | _, _, _, _ => none
                | _ => none
              else none
            | _, _, _, _ => none
          | _ => none
        else none
    else if c.toNat < 32 then none
    else parseJStr f (c :: acc) rest

/-- Collect the lexeme of a JSON number starting at `l`, following the strict
JSON number grammar (`-? (0 | [1-9][0-9]*) (. [0-9]+)? ([eE][+-]?[0-9]+)?`);
a trailing partial fraction or exponent is left unconsumed, as with the
regular expression used by Python `json`. -/
def parseJNum (l : List Char) : Option (String × List Char) :=
  let (sign, l1) :=
    match l with
    | '-' :: rest => (['-'], rest)
    | _ => (([] : List Char), l)
  let intRes : Option (List Char × List Char) :=
    match l1 with
    | '0' :: rest => some (['0'], rest)
    | c :: rest =>
      if 49 ≤ c.toNat && c.toNat ≤ 57 then
        let ds := rest.takeWhile (fun d => (digitVal d).isSome)
        some (c :: ds, rest.drop ds.length)
      else none
    | [] => none
  match intRes with
  | none => none
  | some (ip, l2) =>
    let (fp, l3) :=
      match l2 with
      | '.' :: rest =>
        let ds := rest.takeWhile (fun d => (digitVal d).isSome)
        if ds.isEmpty then (([] : List Char), l2)
        else ('.' :: ds, rest.drop ds.length)
      | _ => (([] : List Char), l2)
    let (ep, l4) :=
      match l3 with
      | e :: rest =>
        if e = 'e' || e = 'E' then
          match rest with
          | s :: rest2 =>
            if s = '+' || s = '-' then
              let ds := rest2.takeWhile (fun d => (digitVal d).isSome)
              if ds.isEmpty then (([] : List Char), l3)
              else (e :: s :: ds, rest2.drop ds.length)
            else
              let ds := rest.takeWhile (fun d => (digitVal d).isSome)
              if ds.isEmpty then (([] : List Char), l3)
              else (e :: ds, rest.drop ds.length)
          | [] => (([] : List Char), l3)
        else (([] : List Char), l3)
      | [] => (([] : List Char), l3)
    some (String.mk (sign ++ ip ++ fp ++ ep), l4)

/-- Insert into an object under `dict` semantics: a repeated key replaces the
earlier value in place. -/
def objInsert (acc : List (String × Json)) (k : String) (v : Json) :
    List (String × Json) :=
  if acc.any (fun p => p.1 == k) then
    acc.map (fun p => if p.1 == k then (k, v) else p)
  else acc ++ [(k, v)]

/-- Parser modes: a single value, the members of an object being read, or the
items of an array being read. -/
inductive JMode where
  | value : JMode
  | members (acc : List (String × Json)) : JMode
  | items (acc : List Json) : JMode

/-- Recursive-descent JSON parser (model of Python `json.loads` on text).
`fuel` bounds recursion depth and is instantiated large enough at the top
level.  `NaN`, `Infinity` and `-Infinity` are accepted, as by Python. -/
def parseJ : Nat → JMode → List Char → Option (Json × List Char)
  | 0, _, _ => none
  | f + 1, .value, l =>
    match l with
    | [] => none
    | c :: rest =>
      if c = '{' then
        match skipJsonWs rest with
        | '}' :: rest2 => some (.obj [], rest2)
        | l2 => parseJ f (.members []) l2
      else if c = '[' then
        match skipJsonWs rest with
        | ']' :: rest2 => some (.arr [], rest2)
        | l2 => parseJ f (.items []) l2
      else if c = '"' then
        (parseJStr (rest.length + 1) [] rest).map (fun p => (.str p.1, p.2))
      else if l.take 4 = ['t', 'r', 'u', 'e'] then some (.bool true, l.drop 4)
      else if l.take 5 = ['f', 'a', 'l', 's', 'e'] then
        some (.bool false, l.drop 5)
      else if l.take 4 = ['n', 'u', 'l', 'l'] then some (.null, l.drop 4)
      else if l.take 3 = ['N', 'a', 'N'] then some (.num "NaN", l.drop 3)
      else if l.take 8 = ['I', 'n', 'f', 'i', 'n', 'i', 't', 'y'] then
        some (.num "Infinity", l.drop 8)
      else if l.take 9 = ['-', 'I', 'n', 'f', 'i', 'n', 'i', 't', 'y'] then
        some (.num "-Infinity", l.drop 9)
      else (parseJNum l).map (fun p => (.num p.1, p.2))
  | f + 1, .members acc, l =>
    match l with
    | '"' :: rest =>
      match parseJStr (rest.length + 1) [] rest with
      | none => none
      | some (k, rest2) =>
        match skipJsonWs rest2 with
        | ':' :: rest3 =>
          match parseJ f .value (skipJsonWs rest3) with
          | none => none
          | some (v, rest4) =>
            match skipJsonWs rest4 with
            | ',' :: rest5 => parseJ f (.members (objInsert acc k v)) (skipJsonWs rest5)
            | '}' :: rest5 => some (.obj (objInsert acc k v), rest5)
            | _ => none
        | _ => none
    | _ => none
  | f + 1, .items acc, l =>
    match parseJ f .value l with
    | none => none
    | some (v, rest) =>
      match skipJsonWs rest with
      | ',' :: rest2 => parseJ f (.items (v :: acc)) (skipJsonWs rest2)
      | ']' :: rest2 => some (.arr (v :: acc).reverse, rest2)
      | _ => none

/-- Model of `json.loads` applied to `bytes`: UTF-8 decode then parse.  The
error string stands in for the text of `UnicodeDecodeError` /
`json.JSONDecodeError` (whose exact wording is not modelled); both exception
types are caught at the single call site in `parse_delivery`. -/
def pyJsonLoads (bs : List Nat) : Except String Json :=
  match utf8Decode bs with
  | none => .error "UnicodeDecodeError"
  | some chars =>
    let l := skipJsonWs chars
    match parseJ (2 * l.length + 4) .value l with
    | none => .error "Expecting value"
    | some (v, rest) =>
      if (skipJsonWs rest).isEmpty then .ok v else .error "Extra data"

/-- Does a JSON number lexeme denote the value zero?  (The significand, sign
aside, consists only of `0` and `.`.) -/
def jsonNumIsZero (raw : String) : Bool :=
  let noSign :=
    match raw.data with
    | '-' :: rest => rest
    | l => l
  let mantissa := noSign.takeWhile (fun c => c ≠ 'e' && c ≠ 'E')
  mantissa.all (fun c => c = '0' || c = '.')

/-- Python truthiness of a decoded JSON value (`bool(x)` on the corresponding
Python object: `None`, `False`, zero, empty string/list/dict are falsy). -/
def pyTruthy : Json → Bool
  | .null => false
  | .bool b => b
  | .num raw => !jsonNumIsZero raw
  | .str s => !(s == "")
  | .arr items => !items.isEmpty
  | .obj fields => !fields.isEmpty

/-! ## Datetimes and a model of `datetime.fromisoformat` -/

/-- A Python `datetime`: calendar fields plus an optional fixed UTC offset in
minutes (`none` models a naive datetime, `some 0` models `timezone.utc`). -/
structure PyDateTime where
  year : Nat
  month : Nat
  day : Nat
  hour : Nat
  minute : Nat
  second : Nat
  microsecond : Nat
  tzOffsetMinutes : Option Int
  deriving Repr, DecidableEq

/-- `datetime.min.replace(tzinfo=timezone.utc)`: the sentinel for empty or
missing payload timestamps. -/
def datetimeMinUtc : PyDateTime := ⟨1, 1, 1, 0, 0, 0, 0, some 0⟩

/-- Is a year a leap year (proleptic Gregorian, as `datetime` uses)? -/
def isLeapYear (y : Nat) : Bool :=
  y % 4 = 0 && (y % 100 ≠ 0 || y % 400 = 0)

/-- Days in a month. -/
def daysInMonth (y m : Nat) : Nat :=
  if m = 2 then (if isLeapYear y then 29 else 28)
  else if m = 4 || m = 6 || m = 9 || m = 11 then 30
  else 31

/-- Parse exactly `n` ASCII digits as a number. -/
def parseDigitsN : Nat → List Char → Option (Nat × List Char)
  | 0, l => some (0, l)
  | n + 1, c :: rest =>
    match digitVal c with
    | some d =>
      (parseDigitsN n rest).map (fun p => (d * 10 ^ n + p.1, p.2))
    | none => none
  | _ + 1, [] => none

/-- Parse the time-of-day part `HH[:MM[:SS[.fff[fff]]]]` of an isoformat
string. -/
def parseIsoTime (l : List Char) :
    Option (Nat × Nat × Nat × Nat × List Char) :=
  match parseDigitsN 2 l with
  | none => none
  | some (hh, l1) =>
    match l1 with
    | ':' :: l2 =>
      match parseDigitsN 2 l2 with
      | none => none
      | some (mm, l3) =>
        match l3 with
        | ':' :: l4 =>
          match parseDigitsN 2 l4 with
          | none => none
          | some (ss, l5) =>
            match l5 with
            | '.' :: l6 =>
              match parseDigitsN 6 l6 with
              | some (us, l7) => some (hh, mm, ss, us, l7)
              | none =>
                match parseDigitsN 3 l6 with
                | some (ms, l7) => some (hh, mm, ss, ms * 1000, l7)
                | none => none
            | _ => some (hh, mm, ss, 0, l5)
        | _ => some (hh, mm, 0, 0, l3)
    | _ => some (hh, 0, 0, 0, l1)

/-- Parse the UTC-offset part `[+-]HH:MM[:SS]` of an isoformat string
(fractional offsets are outside the modelled scope), yielding signed minutes.
The offset must be strictly less than a day for `timezone` to accept it. -/
def parseIsoOffset (l : List Char) : Option (Option Int × List Char) :=
  match l with
  | [] => some (none, [])
  | s :: l1 =>
    if s = '+' || s = '-' then
      match parseDigitsN 2 l1 with
      | none => none
      | some (oh, l2) =>
        match l2 with
        | ':' :: l3 =>
          match parseDigitsN 2 l3 with
          | none => none
          | some (om, l4) =>
            let (os, l6) :=
              match l4 with
              | ':' :: l5 =>
                match parseDigitsN 2 l5 with
                | some (os, l6) => (os, l6)
                | none => (0, l4)
              | _ => (0, l4)
            if om ≤ 59 && os ≤ 59 && oh * 60 + om < 1440 then
              let mins : Int := (oh * 60 + om : Nat)
              some (some (if s = '-' then -mins else mins), l6)
            else none
        | _ => none
    else none

/-- Model of `datetime.fromisoformat` (the pre-3.11 grammar the source is
written against: `YYYY-MM-DD[*HH[:MM[:SS[.fff[fff]]]][+HH:MM[:SS]]]`), as an
`Option`; sub-minute offset components are accepted but truncated to minutes
in the stored offset. -/
def fromisoOpt (s : String) : Option PyDateTime :=
  match parseDigitsN 4 s.data with
  | none => none
  | some (y, l1) =>
    match l1 with
    | '-' :: l2 =>
      match parseDigitsN 2 l2 with
      | none => none
      | some (mo, l3) =>
        match l3 with
        | '-' :: l4 =>
          match parseDigitsN 2 l4 with
          | none => none
          | some (d, l5) =>
            let timeRes :
                Option (Nat × Nat × Nat × Nat × Option Int × List Char) :=
              match l5 with
              | [] => some (0, 0, 0, 0, none, [])
              | _sep :: l6 =>
                match parseIsoTime l6 with
                | none => none
                | some (hh, mm, ss, us, l7) =>
                  match parseIsoOffset l7 with
                  | none => none
                  | some (off, l8) => some (hh, mm, ss, us, off, l8)
            match timeRes with
            | none => none
            | some (hh, mm, ss, us, off, lrest) =>
              if lrest.isEmpty && 1 ≤ y && 1 ≤ mo && mo ≤ 12 &&
                  1 ≤ d && d ≤ daysInMonth y mo &&
                  hh ≤ 23 && mm ≤ 59 && ss ≤ 59 then
                some ⟨y, mo, d, hh, mm, ss, us, off⟩
              else none
        | _ => none
    | _ => none

/-! ## Exceptions and `_parse_dt` (from `src/posthook/_models.py`) -/

/-- The Python exceptions observable from the verification core:
`SignatureVerificationError` (the only one the code raises itself),
`ValueError` (escapes from `datetime.fromisoformat`), and `AttributeError`
(escapes from duck-typed attribute access on a payload of unexpected type).
Each carries its message. -/
inductive PyErr where
  | sve (msg : String) : PyErr
  | valueError (msg : String) : PyErr
  | attributeError (msg : String) : PyErr
  deriving Repr, DecidableEq

/-- `datetime.fromisoformat(s)`: raises `ValueError` on strings outside the
grammar. -/
def fromisoformat (s : String) : Except PyErr PyDateTime :=
  match fromisoOpt s with
  | some d => .ok d
  | none => .error (.valueError ("Invalid isoformat string: " ++ s))

/-- `_parse_dt(value)` from `src/posthook/_models.py`.  The parameter is
annotated `str` in the source but Python does not enforce it, and
`parse_delivery` feeds it raw payload values, so the model takes `Json`:
a falsy value takes the sentinel branch (`if not value:`), a truthy
non-string has no `.endswith` and raises `AttributeError`. -/
def parse_dt (value : Json) : Except PyErr PyDateTime :=
  if !pyTruthy value then .ok datetimeMinUtc
  else
    match value with
    | .str s =>
      let s2 :=
        if s.data.getLast? = some 'Z' then
          String.mk s.data.dropLast ++ "+00:00"
        else s
      fromisoformat s2
    | _ => .error (.attributeError "object has no attribute endswith")

/-! ## Header lookup (`_get_header`) -/

/-- A header value as supplied by the caller: a scalar string or a list of
strings (frameworks that always deliver multi-valued headers).  Non-string
scalar values (which `_get_header` would pass through `str()`) are outside
the modelled scope. -/
inductive HVal where
  | scalar (s : String) : HVal
  | vlist (l : List String) : HVal
  deriving Repr, DecidableEq

/-- A header mapping: association list in insertion order (Python `dict`
iteration order), keys unique as in a `dict`. -/
abbrev Headers := List (String × HVal)

/-- Turn a found header value into the function result: `val[0] if val else
None` for lists, `str(val)` (identity on strings) for scalars. -/
def extractVal : HVal → Option String
  | .scalar s => some s
  | .vlist [] => none
  | .vlist (x :: _) => some x

/-- The case-insensitive scan over `headers.items()`: return on the first key
whose lowercase form matches, even when its value is an empty list. -/
def lookupLower : Headers → String → Option String
  | [], _ => none
  | (k, v) :: rest, lower =>
    if asciiLower k = lower then extractVal v else lookupLower rest lower

/-- `_get_header(headers, name)`: exact-case `headers.get(name)` first (its
result is returned even when it extracts to `None` from an empty list), then
the case-insensitive scan. -/
def get_header (headers : Headers) (name : String) : Option String :=
  match headers.find? (fun p => p.1 == name) with
  | some p => extractVal p.2
  | none => lookupLower headers (asciiLower name)

/-! ## `Delivery`, the payload-construction step, and `parse_delivery` -/

/-- A parsed and verified webhook delivery (`Delivery` in
`src/posthook/_models.py`).  `path` and `data` hold whatever
`payload.get(...)` returned (the dataclass does not check its annotations). -/
structure Delivery where
  hook_id : String
  timestamp : Int
  path : Json
  data : Json
  body : List Nat
  post_at : PyDateTime
  posted_at : PyDateTime
  created_at : PyDateTime
  updated_at : PyDateTime

/-- `payload.get(key, default)`: dictionary lookup with default; on a decoded
payload that is not an object (no `.get` attribute) Python raises
`AttributeError`. -/
def jsonGet (j : Json) (key : String) (default : Json) : Except PyErr Json :=
  match j with
  | .obj fields =>
    .ok ((((fields.find? (fun p => p.1 == key)).map Prod.snd)).getD default)
  | _ => .error (.attributeError "object has no attribute get")

/-- The final `return Delivery(...)` of `parse_delivery`: field extraction and
date parsing, with arguments evaluated left to right as in Python. -/
def build_delivery (hook_id : String) (timestamp : Int) (body_bytes : List Nat)
    (payload : Json) : Except PyErr Delivery :=
  match jsonGet payload "path" (.str "") with
  | .error e => .error e
  | .ok pathv =>
    match jsonGet payload "data" .null with
    | .error e => .error e
    | .ok datav =>
      match jsonGet payload "postAt" (.str "") with
      | .error e => .error e
      | .ok postAtRaw =>
        match parse_dt postAtRaw with
        | .error e => .error e
        | .ok post_at =>
          match jsonGet payload "postedAt" (.str "") with
          | .error e => .error e
          | .ok postedAtRaw =>
            match parse_dt postedAtRaw with
            | .error e => .error e
            | .ok posted_at =>
              match jsonGet payload "createdAt" (.str "") with
              | .error e => .error e
              | .ok createdAtRaw =>
                match parse_dt createdAtRaw with
                | .error e => .error e
                | .ok created_at =>
                  match jsonGet payload "updatedAt" (.str "") with
                  | .error e => .error e
                  | .ok updatedAtRaw =>
                    match parse_dt updatedAtRaw with
                    | .error e => .error e
                    | .ok updated_at =>
                      .ok ⟨hook_id, timestamp, pathv, datav, body_bytes,
                        post_at, posted_at, created_at, updated_at⟩

/-- The request body argument: `bytes | str`. -/
inductive PyBody where
  | bytes (l : List Nat) : PyBody
  | str (s : String) : PyBody

/-- `body if isinstance(body, bytes) else body.encode("utf-8")`. -/
def pyBodyBytes : PyBody → List Nat
  | .bytes l => l
  | .str s => utf8Encode s

/-- Python `a or b` on optional strings: `b` when `a` is `None` or empty. -/
def pyOr (a b : Option String) : Option String :=
  match a with
  | some s => if s = "" then b else some s
  | none => b

/-- The `NoSigningKey` message. -/
def noKeyMsg : String :=
  "No signing key provided. Pass signing_key to the Posthook constructor or to parse_delivery()."

/-- The `TimestampExpired` message, from the f-string in the source. -/
def mkExpiredMsg (diff : Nat) (tolerance : Int) : String :=
  "Timestamp too old: " ++ toString diff ++ "s difference exceeds " ++
    toString tolerance ++ "s tolerance"

/-- The body of `SignaturesService.parse_delivery` after the four pure header
lookups (hoisted out unchanged: they are side-effect-free).  Steps appear in
source order: key check, timestamp header, signature header, `int(...)`,
freshness window, signature recomputation and matching, `json.loads`, and the
`Delivery` construction. -/
def parse_delivery_core (key? : Option String) (idv tsv sigv : Option String)
    (body_bytes : List Nat) (tolerance now : Int) : Except PyErr Delivery :=
  match key? with
  | none => .error (.sve noKeyMsg)
  | some key =>
    if key = "" then .error (.sve noKeyMsg)
    else
      let hook_id := idv.getD ""
      match tsv with
      | none => .error (.sve "Missing Posthook-Timestamp header")
      | some timestamp_str =>
        if timestamp_str = "" then
          .error (.sve "Missing Posthook-Timestamp header")
        else
          match sigv with
          | none => .error (.sve "Missing Posthook-Signature header")
          | some signature =>
            if signature = "" then
              .error (.sve "Missing Posthook-Signature header")
            else
              match pyInt timestamp_str with
              | none =>
                .error (.sve ("Invalid Posthook-Timestamp: " ++ timestamp_str))
              | some timestamp =>
                let diff : Nat := (now - timestamp).natAbs
                if tolerance < (diff : Int) then
                  .error (.sve (mkExpiredMsg diff tolerance))
                else
                  let expected_sig := compute_signature key timestamp body_bytes
                  let signatures := pySplitSpace signature
                  let verified := signatures.any (fun s => safe_compare s expected_sig)
                  if !verified then
                    .error (.sve "Signature verification failed")
                  else
                    match pyJsonLoads body_bytes with
                    | .error exc =>
                      .error (.sve ("Failed to parse delivery payload: " ++ exc))
                    | .ok payload =>
                      build_delivery hook_id timestamp body_bytes payload

/-- `SignaturesService.parse_delivery(body, headers, signing_key=...,
tolerance=...)`.  `env` is the value of `os.environ["POSTHOOK_SIGNING_KEY"]`
(process state available to the function); the source imports `os` but reads
the environment only in `create_signatures`, so `env` is never consulted
here.  `self_key` is the instance attribute `self._signing_key`; `now` is the
wall-clock reading `int(time.time())`. -/
def parse_delivery (env : Option String) (self_key : Option String)
    (body : PyBody) (headers : Headers) (signing_key : Option String)
    (tolerance : Int) (now : Int) : Except PyErr Delivery :=
  parse_delivery_core (pyOr signing_key self_key)
    (get_header headers "Posthook-Id")
    (get_header headers "Posthook-Timestamp")
    (get_header headers "Posthook-Signature")
    (pyBodyBytes body) tolerance now

/-- The `SignaturesService` instance state: its configured signing key. -/
structure SignaturesService where
  signingKey : Option String
  deriving Repr, DecidableEq

/-- `create_signatures(signing_key)`: standalone constructor with fail-fast
key resolution; `signing_key or os.environ.get("POSTHOOK_SIGNING_KEY", "")`,
raising `ValueError` when the result is empty. -/
def create_signatures (env : Option String) (signing_key : Option String) :
    Except PyErr SignaturesService :=
  let resolved :=
    match pyOr signing_key (some (env.getD "")) with
    | some s => s
    | none => ""
  if resolved = "" then
    .error (.valueError
      "No signing key provided. Pass signing_key to create_signatures() or set the POSTHOOK_SIGNING_KEY environment variable.")
  else .ok ⟨some resolved⟩

end Posthook

open Posthook

/-- SHA-256 test vector: sanity check of the `hashlib.sha256` model. -/
theorem sha256_abc_vector :
    hexOfBytes (sha256 (utf8Encode "abc")) =
      "ba7816bf8f01cfea414140de5dae2223b00361a396177a9cb410ff61f20015ad" := by
  decide

/-- HMAC-SHA256 test vector (RFC 4231, test case 2): sanity check of the
`hmac` model. -/
theorem hmac_rfc4231_vector :
    hexOfBytes (hmacSha256 (utf8Encode "Jefe")
        (utf8Encode "what do ya want for nothing?")) =
      "5bdcc146bf60754e6a042426089575c75a003f089d2739839dec58b964ec3843" := by
  decide

/-! ## Injectivity of UTF-8 encoding: `_safe_compare` is string equality -/

lemma char_toNat_lt (c : Char) : c.toNat < 1114112 := by
  rcases c.valid with h | h
  · exact Nat.lt_trans h (by decide)
  · exact h.2

lemma char_eq_of_toNat_eq {c1 c2 : Char} (h : c1.toNat = c2.toNat) : c1 = c2 :=
  Char.eq_of_val_eq (by
    apply UInt32.eq_of_val_eq
    exact Fin.eq_of_val_eq h)

lemma utf8EncodeChar_ne_nil (c : Char) : utf8EncodeChar c ≠ [] := by
  simp only [utf8EncodeChar]
  split_ifs <;> simp

/-- UTF-8 is a prefix code: equal streams starting with encoded characters
start with the same character. -/
lemma utf8EncodeChar_prefix {c1 c2 : Char} {r1 r2 : List Nat}
    (h : utf8EncodeChar c1 ++ r1 = utf8EncodeChar c2 ++ r2) :
    c1 = c2 ∧ r1 = r2 := by
  have hv1 := char_toNat_lt c1
  have hv2 := char_toNat_lt c2
  simp only [utf8EncodeChar] at h
  split_ifs at h <;>
    simp only [List.cons_append, List.nil_append, List.cons.injEq] at h <;>
    first
      | (exfalso; omega)
      | (exact ⟨char_eq_of_toNat_eq (by omega), by tauto⟩)

lemma utf8EncodeList_inj : ∀ {l1 l2 : List Char},
    l1.flatMap utf8EncodeChar = l2.flatMap utf8EncodeChar → l1 = l2
  | [], [], _ => rfl
  | [], c :: _, h => by
    exfalso
    rw [List.flatMap_nil, List.flatMap_cons] at h
    exact utf8EncodeChar_ne_nil c (List.append_eq_nil.mp h.symm).1
  | c :: _, [], h => by
    exfalso
    rw [List.flatMap_nil, List.flatMap_cons] at h
    exact utf8EncodeChar_ne_nil c (List.append_eq_nil.mp h).1
  | c1 :: l1, c2 :: l2, h => by
    rw [List.flatMap_cons, List.flatMap_cons] at h
    obtain ⟨hc, hrest⟩ := utf8EncodeChar_prefix h
    rw [hc, utf8EncodeList_inj hrest]

lemma utf8Encode_inj {a b : String} (h : utf8Encode a = utf8Encode b) :
    a = b := by
  cases a with
  | mk da =>
    cases b with
    | mk db => exact congrArg String.mk (utf8EncodeList_inj h)

/-- `_safe_compare` decides exactly string equality. -/
lemma safe_compare_iff {a b : String} : safe_compare a b = true ↔ a = b := by
  constructor
  · intro h
    exact utf8Encode_inj (by simpa [safe_compare] using h)
  · intro h
    simp [safe_compare, h]

/-! ## Distinguishing the error messages -/

/-- Two strings with distinct head characters stay different under appending
suffixes. -/
lemma str_append_head_ne (ca cb : Char) {a b : String} {la lb : List Char}
    (ha : a.data = ca :: la) (hb : b.data = cb :: lb) (hne : ca ≠ cb)
    (s t : String) : a ++ s ≠ b ++ t := by
  intro he
  have hd : (a ++ s).data = (b ++ t).data := congrArg String.data he
  rw [String.data_append, String.data_append, ha, hb] at hd
  injection hd with h1 _
  exact hne h1

/-- A string is distinct from any extension of a string with another head. -/
lemma str_ne_append_of_head_ne (ca cb : Char) {a b : String}
    {la lb : List Char} (ha : a.data = ca :: la) (hb : b.data = cb :: lb)
    (hne : ca ≠ cb) (t : String) : a ≠ b ++ t := by
  intro he
  exact str_append_head_ne ca cb ha hb hne "" t (by rwa [String.append_empty])

lemma mkExpiredMsg_eq (d : Nat) (tol : Int) :
    mkExpiredMsg d tol =
      "Timestamp too old: " ++
        (toString d ++ ("s difference exceeds " ++
          (toString tol ++ "s tolerance"))) := by
  simp [mkExpiredMsg, String.append_assoc]

lemma sigFail_ne_expired (d : Nat) (tol : Int) :
    "Signature verification failed" ≠ mkExpiredMsg d tol := by
  rw [mkExpiredMsg_eq]
  exact str_ne_append_of_head_ne 'S' 'T' rfl rfl (by decide) _

lemma decodeFail_ne_expired (m : String) (d : Nat) (tol : Int) :
    "Failed to parse delivery payload: " ++ m ≠ mkExpiredMsg d tol := by
  rw [mkExpiredMsg_eq]
  exact str_append_head_ne 'F' 'T' rfl rfl (by decide) _ _

lemma sigFail_ne_decodeFail (m : String) :
    "Signature verification failed" ≠
      "Failed to parse delivery payload: " ++ m := by
  exact str_ne_append_of_head_ne 'S' 'F' rfl rfl (by decide) _

/-! ## The construction step raises no `SignatureVerificationError` -/

lemma jsonGet_not_sve (j : Json) (k : String) (d : Json) (m : String) :
    jsonGet j k d ≠ .error (.sve m) := by
  unfold jsonGet
  split <;> simp

lemma fromisoformat_not_sve (s m : String) :
    fromisoformat s ≠ .error (.sve m) := by
  unfold fromisoformat
  split <;> simp

lemma parse_dt_not_sve (v : Json) (m : String) :
    parse_dt v ≠ .error (.sve m) := by
  unfold parse_dt
  split
  · simp
  · split
    · exact fromisoformat_not_sve _ _
    · simp

lemma build_delivery_not_sve (hid : String) (t : Int) (bb : List Nat)
    (payload : Json) (m : String) :
    build_delivery hid t bb payload ≠ .error (.sve m) := by
  unfold build_delivery
  intro hc
  repeat' split at hc
  all_goals
    first
      | exact Except.noConfusion hc
      | (rename_i e he
         injection hc with hc2
         rw [hc2] at he
         first
           | exact jsonGet_not_sve _ _ _ _ he
           | exact parse_dt_not_sve _ _ he)

/-! ## Stage lemmas for the verification pipeline -/

lemma core_noKey (k? : Option String) (idv tsv sigv : Option String)
    (bb : List Nat) (tol now : Int) (h : k? = none ∨ k? = some "") :
    parse_delivery_core k? idv tsv sigv bb tol now = .error (.sve noKeyMsg) := by
  rcases h with h | h <;> subst h <;> simp [parse_delivery_core]

lemma core_missingTs (k : String) (idv sigv : Option String) (tsv : Option String)
    (bb : List Nat) (tol now : Int) (hk : k ≠ "")
    (h : tsv = none ∨ tsv = some "") :
    parse_delivery_core (some k) idv tsv sigv bb tol now =
      .error (.sve "Missing Posthook-Timestamp header") := by
  rcases h with h | h <;> subst h <;> simp [parse_delivery_core, hk]

lemma core_missingSig (k s : String) (idv : Option String) (sigv : Option String)
    (bb : List Nat) (tol now : Int) (hk : k ≠ "") (hs : s ≠ "")
    (h : sigv = none ∨ sigv = some "") :
    parse_delivery_core (some k) idv (some s) sigv bb tol now =
      .error (.sve "Missing Posthook-Signature header") := by
  rcases h with h | h <;> subst h <;> simp [parse_delivery_core, hk, hs]

lemma core_invalidTs (k s g : String) (idv : Option String)
    (bb : List Nat) (tol now : Int) (hk : k ≠ "") (hs : s ≠ "") (hg : g ≠ "")
    (hint : pyInt s = none) :
    parse_delivery_core (some k) idv (some s) (some g) bb tol now =
      .error (.sve ("Invalid Posthook-Timestamp: " ++ s)) := by
  simp [parse_delivery_core, hk, hs, hg, hint]

lemma core_expired (k s g : String) (idv : Option String) (t : Int)
    (bb : List Nat) (tol now : Int) (hk : k ≠ "") (hs : s ≠ "") (hg : g ≠ "")
    (hint : pyInt s = some t) (hfresh : tol < (((now - t).natAbs : Nat) : Int)) :
    parse_delivery_core (some k) idv (some s) (some g) bb tol now =
      .error (.sve (mkExpiredMsg (now - t).natAbs tol)) := by
  simp [parse_delivery_core, hk, hs, hg, hint, hfresh]
  intro h
  rw [← Int.natCast_natAbs] at h
  omega

lemma core_fresh (k s g : String) (idv : Option String) (t : Int)
    (bb : List Nat) (tol now : Int) (hk : k ≠ "") (hs : s ≠ "") (hg : g ≠ "")
    (hint : pyInt s = some t)
    (hfresh : ¬ tol < (((now - t).natAbs : Nat) : Int)) :
    parse_delivery_core (some k) idv (some s) (some g) bb tol now =
      (if !(pySplitSpace g).any
          (fun c => safe_compare c (compute_signature k t bb)) then
        .error (.sve "Signature verification failed")
      else
        match pyJsonLoads bb with
        | .error exc =>
          .error (.sve ("Failed to parse delivery payload: " ++ exc))
        | .ok payload => build_delivery (idv.getD "") t bb payload) := by
  simp [parse_delivery_core, hk, hs, hg, hint, hfresh]
  intro h
  rw [← Int.natCast_natAbs] at h
  omega

/-! ## Hex digest shape lemmas -/

def decDigitChars : List Char :=
  ['0', '1', '2', '3', '4', '5', '6', '7', '8', '9']

def hexLetterChars : List Char :=
  ['a', 'b', 'c', 'd', 'e', 'f']

/-- The sixteen lowercase hexadecimal digit characters. -/
def hexAlphabet : List Char := decDigitChars ++ hexLetterChars

lemma utf8Encode_append (s t : String) :
    utf8Encode (s ++ t) = utf8Encode s ++ utf8Encode t := by
  simp [utf8Encode, String.data_append]

lemma hash8Bytes_length (st : Hash8) : (hash8Bytes st).length = 32 := by
  simp [hash8Bytes]

lemma hash8Bytes_lt (st : Hash8) : ∀ b ∈ hash8Bytes st, b < 256 := by
  intro b hb
  simp [hash8Bytes] at hb
  omega

lemma sha256_length (msg : List Nat) : (sha256 msg).length = 32 :=
  hash8Bytes_length _

lemma sha256_lt (msg : List Nat) : ∀ b ∈ sha256 msg, b < 256 :=
  hash8Bytes_lt _

lemma hmacSha256_length (key msg : List Nat) :
    (hmacSha256 key msg).length = 32 :=
  sha256_length _

lemma hmacSha256_lt (key msg : List Nat) : ∀ b ∈ hmacSha256 key msg, b < 256 :=
  sha256_lt _

lemma hexDigit_mem : ∀ n < 16, hexDigit n ∈ hexAlphabet := by decide

lemma hexOfBytes_length (bs : List Nat) :
    (hexOfBytes bs).length = 2 * bs.length := by
  induction bs with
  | nil => rfl
  | cons b rest ih =>
    simp only [hexOfBytes, String.length, List.flatMap_cons] at ih ⊢
    simp only [List.length_append, List.length_cons, List.length_nil] at ih ⊢
    omega

lemma hexOfBytes_mem {bs : List Nat} (hlt : ∀ b ∈ bs, b < 256) :
    ∀ c ∈ (hexOfBytes bs).data, c ∈ hexAlphabet := by
  intro c hc
  simp only [hexOfBytes] at hc
  rw [List.mem_flatMap] at hc
  obtain ⟨b, hb, hcb⟩ := hc
  have hblt := hlt b hb
  simp only [List.mem_cons, List.not_mem_nil, or_false] at hcb
  rcases hcb with rfl | rfl
  · exact hexDigit_mem _ (by omega)
  · exact hexDigit_mem _ (by omega)

/-- C1: the computed signature is the literal prefix `v1,` followed by the
lowercase hexadecimal digest (64 hex characters) of HMAC-SHA256 keyed with
the signing key over `decimal(t) ++ "." ++ body`. -/
theorem c1_signature_format (k : String) (t : Int) (b : List Nat) :
    compute_signature k t b =
      "v1," ++ hexOfBytes (hmacSha256 (utf8Encode k)
        (utf8Encode (toString t) ++ utf8Encode "." ++ b)) ∧
    (hexOfBytes (hmacSha256 (utf8Encode k)
        (utf8Encode (toString t) ++ utf8Encode "." ++ b))).length = 64 ∧
    ∀ c ∈ (hexOfBytes (hmacSha256 (utf8Encode k)
        (utf8Encode (toString t) ++ utf8Encode "." ++ b))).data,
      c ∈ hexAlphabet := by
  refine ⟨?_, ?_, ?_⟩
  · simp [compute_signature, hmacNew, HmacState.update, HmacState.hexdigest,
      utf8Encode_append]
  · rw [hexOfBytes_length, hmacSha256_length]
  · exact hexOfBytes_mem (hmacSha256_lt _ _)

/-! ## C2: signature matching -/

lemma core_not_expired (k s g : String) (idv : Option String) (t : Int)
    (bb : List Nat) (tol now : Int) (hk : k ≠ "") (hs : s ≠ "") (hg : g ≠ "")
    (hint : pyInt s = some t)
    (hfresh : ¬ tol < (((now - t).natAbs : Nat) : Int)) (d : Nat) (tl : Int) :
    parse_delivery_core (some k) idv (some s) (some g) bb tol now ≠
      .error (.sve (mkExpiredMsg d tl)) := by
  rw [core_fresh k s g idv t bb tol now hk hs hg hint hfresh]
  by_cases hv : (pySplitSpace g).any
      (fun c => safe_compare c (compute_signature k t bb)) = true
  · rw [hv]
    simp only [Bool.not_true, Bool.false_eq_true, if_false]
    cases hL : pyJsonLoads bb with
    | error exc =>
      intro h
      injection h with h1
      injection h1 with h2
      exact decodeFail_ne_expired exc d tl h2
    | ok payload => exact build_delivery_not_sve _ _ _ _ _
  · rw [eq_false_of_ne_true hv]
    simp only [Bool.not_false, if_true]
    intro h
    injection h with h1
    injection h1 with h2
    exact sigFail_ne_expired d tl h2

/-- C2: once the signature-matching step is reached, verification fails with
`SignatureMismatch` exactly when no space-separated candidate in the
`Posthook-Signature` header equals the recomputed expected signature. -/
theorem c2_signature_match_iff
    (env self_key argKey : Option String) (body : PyBody) (headers : Headers)
    (tol now : Int) (k s g : String) (t : Int)
    (hk : pyOr argKey self_key = some k) (hk2 : k ≠ "")
    (hts : get_header headers "Posthook-Timestamp" = some s) (hs : s ≠ "")
    (hsig : get_header headers "Posthook-Signature" = some g) (hg : g ≠ "")
    (hint : pyInt s = some t)
    (hfresh : (((now - t).natAbs : Nat) : Int) ≤ tol) :
    (parse_delivery env self_key body headers argKey tol now =
        .error (.sve "Signature verification failed")) ↔
      ¬ ∃ c ∈ pySplitSpace g, c = compute_signature k t (pyBodyBytes body) := by
  have hcore : parse_delivery env self_key body headers argKey tol now =
      parse_delivery_core (some k) (get_header headers "Posthook-Id") (some s)
        (some g) (pyBodyBytes body) tol now := by
    unfold parse_delivery
    rw [hk, hts, hsig]
  rw [hcore,
    core_fresh k s g _ t _ tol now hk2 hs hg hint (not_lt.mpr hfresh)]
  by_cases hv : (pySplitSpace g).any
      (fun c => safe_compare c (compute_signature k t (pyBodyBytes body))) = true
  · rw [hv]
    simp only [Bool.not_true, Bool.false_eq_true, if_false]
    constructor
    · intro hEq
      exfalso
      cases hL : pyJsonLoads (pyBodyBytes body) with
      | error exc =>
        rw [hL] at hEq
        injection hEq with h1
        injection h1 with h2
        exact sigFail_ne_decodeFail exc h2.symm
      | ok payload =>
        rw [hL] at hEq
        exact build_delivery_not_sve _ _ _ _ _ hEq
    · intro hno
      exfalso
      obtain ⟨c, hcmem, hsc⟩ := List.any_eq_true.mp hv
      exact hno ⟨c, hcmem, safe_compare_iff.mp hsc⟩
  · rw [eq_false_of_ne_true hv]
    simp only [Bool.not_false, if_true]
    constructor
    · intro _
      rintro ⟨c, hcmem, rfl⟩
      have hfalse := List.any_eq_false.mp (eq_false_of_ne_true hv) _ hcmem
      exact hfalse (safe_compare_iff.mpr rfl)
    · intro _
      trivial

/-! ## Inversion lemmas for the pipeline -/

lemma bool_of_not_not {b : Bool} (h : ¬ (!b) = true) : b = true := by
  cases b <;> simp_all

lemma str_append_left_cancel {a s t : String} (h : a ++ s = a ++ t) : s = t := by
  have hd := congrArg String.data h
  rw [String.data_append, String.data_append] at hd
  have hc := List.append_cancel_left hd
  cases s with
  | mk ds =>
    cases t with
    | mk dt => exact congrArg String.mk hc

/-- If the pipeline reports a payload-decode failure, every earlier stage
passed: in particular some signature candidate matched. -/
lemma core_decode_error_inv (k? : Option String) (idv tsv sigv : Option String)
    (bb : List Nat) (tol now : Int) (m : String)
    (h : parse_delivery_core k? idv tsv sigv bb tol now =
      .error (.sve ("Failed to parse delivery payload: " ++ m))) :
    ∃ k s g t, k? = some k ∧ k ≠ "" ∧ tsv = some s ∧ s ≠ "" ∧
      sigv = some g ∧ g ≠ "" ∧ pyInt s = some t ∧
      ¬ tol < (((now - t).natAbs : Nat) : Int) ∧
      (∃ c ∈ pySplitSpace g, c = compute_signature k t bb) ∧
      pyJsonLoads bb = .error m := by
  unfold parse_delivery_core at h
  repeat' (first | (split at h) | (dsimp only at h))
  all_goals
    try (exfalso
         injection h with h1
         injection h1 with h2
         first
           | exact str_ne_append_of_head_ne 'N' 'F' rfl rfl (by decide) _ h2
           | exact str_ne_append_of_head_ne 'M' 'F' rfl rfl (by decide) _ h2
           | exact str_append_head_ne 'I' 'F' rfl rfl (by decide) _ _ h2
           | exact decodeFail_ne_expired _ _ _ h2.symm
           | exact sigFail_ne_decodeFail _ h2)
  all_goals try (exfalso; exact build_delivery_not_sve _ _ _ _ _ h)
  rename_i x1 tstamp hint x2 exc heqL hnfresh hnv
  injection h with h1
  injection h1 with h2
  have hexc : exc = m := str_append_left_cancel h2
  subst hexc
  obtain ⟨c, hcmem, hsc⟩ := List.any_eq_true.mp (bool_of_not_not hnv)
  exact ⟨_, _, _, tstamp, rfl, by assumption, rfl, by assumption, rfl,
    by assumption, hint, hnfresh, ⟨c, hcmem, safe_compare_iff.mp hsc⟩, heqL⟩

/-- If the pipeline raises anything that is not a
`SignatureVerificationError`, the signature had already verified, the payload
had decoded, and the exception arose in the `Delivery` construction step. -/
lemma core_non_sve_inv (k? : Option String) (idv tsv sigv : Option String)
    (bb : List Nat) (tol now : Int) (e : PyErr)
    (h : parse_delivery_core k? idv tsv sigv bb tol now = .error e)
    (hnot : ∀ mm, e ≠ .sve mm) :
    ∃ k s g t payload, k? = some k ∧ k ≠ "" ∧ tsv = some s ∧ s ≠ "" ∧
      sigv = some g ∧ g ≠ "" ∧ pyInt s = some t ∧
      ¬ tol < (((now - t).natAbs : Nat) : Int) ∧
      (∃ c ∈ pySplitSpace g, c = compute_signature k t bb) ∧
      pyJsonLoads bb = .ok payload ∧
      build_delivery (idv.getD "") t bb payload = .error e := by
  unfold parse_delivery_core at h
  repeat' (first | (split at h) | (dsimp only at h))
  all_goals try (exfalso; injection h with h1; exact hnot _ h1.symm)
  rename_i x1 tstamp hint x2 payload heqL hnfresh hnv
  obtain ⟨c, hcmem, hsc⟩ := List.any_eq_true.mp (bool_of_not_not hnv)
  exact ⟨_, _, _, tstamp, payload, rfl, by assumption, rfl, by assumption, rfl,
    by assumption, hint, hnfresh, ⟨c, hcmem, safe_compare_iff.mp hsc⟩, heqL, h⟩

lemma core_sig_mismatch (k s g : String) (idv : Option String) (t : Int)
    (bb : List Nat) (tol now : Int) (hk : k ≠ "") (hs : s ≠ "") (hg : g ≠ "")
    (hint : pyInt s = some t)
    (hfresh : ¬ tol < (((now - t).natAbs : Nat) : Int))
    (hno : ¬ ∃ c ∈ pySplitSpace g, c = compute_signature k t bb) :
    parse_delivery_core (some k) idv (some s) (some g) bb tol now =
      .error (.sve "Signature verification failed") := by
  rw [core_fresh k s g idv t bb tol now hk hs hg hint hfresh]
  have hv : (pySplitSpace g).any
      (fun c => safe_compare c (compute_signature k t bb)) = false := by
    rw [List.any_eq_false]
    intro c hc hsc
    exact hno ⟨c, hc, safe_compare_iff.mp hsc⟩
  rw [hv]
  simp

lemma core_verified (k s g : String) (idv : Option String) (t : Int)
    (bb : List Nat) (tol now : Int) (hk : k ≠ "") (hs : s ≠ "") (hg : g ≠ "")
    (hint : pyInt s = some t)
    (hfresh : ¬ tol < (((now - t).natAbs : Nat) : Int))
    (hyes : ∃ c ∈ pySplitSpace g, c = compute_signature k t bb) :
    parse_delivery_core (some k) idv (some s) (some g) bb tol now =
      (match pyJsonLoads bb with
       | .error exc =>
         .error (.sve ("Failed to parse delivery payload: " ++ exc))
       | .ok payload => build_delivery (idv.getD "") t bb payload) := by
  rw [core_fresh k s g idv t bb tol now hk hs hg hint hfresh]
  obtain ⟨c, hc, hceq⟩ := hyes
  have hv : (pySplitSpace g).any
      (fun c => safe_compare c (compute_signature k t bb)) = true :=
    List.any_eq_true.mpr ⟨c, hc, safe_compare_iff.mpr hceq⟩
  rw [hv]
  simp

/-! ## C3: the freshness window -/

/-- C3: the freshness check passes exactly when `|now - t| <= tolerance`; the
boundary `|now - t| = tolerance` passes, `tolerance + 1` fails with
`TimestampExpired`, and rejection is symmetric in past and future. -/
theorem c3_freshness_window
    (env self_key argKey : Option String) (body : PyBody) (headers : Headers)
    (tol : Int) (k s g : String) (t : Int)
    (hk : pyOr argKey self_key = some k) (hk2 : k ≠ "")
    (hts : get_header headers "Posthook-Timestamp" = some s) (hs : s ≠ "")
    (hsig : get_header headers "Posthook-Signature" = some g) (hg : g ≠ "")
    (hint : pyInt s = some t) :
    (∀ now : Int,
      (parse_delivery env self_key body headers argKey tol now =
        .error (.sve (mkExpiredMsg (now - t).natAbs tol))) ↔
      tol < (((now - t).natAbs : Nat) : Int)) ∧
    (∀ now : Int, (((now - t).natAbs : Nat) : Int) = tol →
      parse_delivery env self_key body headers argKey tol now ≠
        .error (.sve (mkExpiredMsg (now - t).natAbs tol))) ∧
    (∀ now : Int, (((now - t).natAbs : Nat) : Int) = tol + 1 →
      parse_delivery env self_key body headers argKey tol now =
        .error (.sve (mkExpiredMsg (now - t).natAbs tol))) ∧
    (∀ d : Int,
      (parse_delivery env self_key body headers argKey tol (t + d) =
        .error (.sve (mkExpiredMsg ((t + d) - t).natAbs tol))) ↔
      (parse_delivery env self_key body headers argKey tol (t - d) =
        .error (.sve (mkExpiredMsg ((t - d) - t).natAbs tol)))) := by
  have hcore : ∀ now : Int,
      parse_delivery env self_key body headers argKey tol now =
        parse_delivery_core (some k) (get_header headers "Posthook-Id")
          (some s) (some g) (pyBodyBytes body) tol now := by
    intro now
    unfold parse_delivery
    rw [hk, hts, hsig]
  have main : ∀ now : Int,
      (parse_delivery env self_key body headers argKey tol now =
        .error (.sve (mkExpiredMsg (now - t).natAbs tol))) ↔
      tol < (((now - t).natAbs : Nat) : Int) := by
    intro now
    rw [hcore now]
    constructor
    · intro h
      by_contra hfr
      exact core_not_expired k s g _ t _ tol now hk2 hs hg hint hfr _ _ h
    · intro hfr
      exact core_expired k s g _ t _ tol now hk2 hs hg hint hfr
  refine ⟨main, ?_, ?_, ?_⟩
  · intro now hEq
    simp only [ne_eq, main now]
    omega
  · intro now hEq
    rw [main now]
    omega
  · intro d
    rw [main (t + d), main (t - d)]
    have : ((t + d) - t).natAbs = ((t - d) - t).natAbs := by omega
    rw [this]

/-! ## Witness fixtures -/

/-- Concrete headers: timestamp `5`, signature candidate `x` (not a match). -/
def wHeaders1 : Headers :=
  [("Posthook-Timestamp", .scalar "5"), ("Posthook-Signature", .scalar "x")]

/-- Witness for C2 at a concrete input. -/
theorem c2_signature_match_iff_witness :
    (pyOr none (some "k") = some "k") ∧ ("k" : String) ≠ "" ∧
    get_header wHeaders1 "Posthook-Timestamp" = some "5" ∧
    ("5" : String) ≠ "" ∧
    get_header wHeaders1 "Posthook-Signature" = some "x" ∧
    ("x" : String) ≠ "" ∧
    pyInt "5" = some 5 ∧ ((((5 : Int) - 5).natAbs : Int) ≤ 300) ∧
    ((parse_delivery none (some "k") (.str "{}") wHeaders1 none 300 5 =
        .error (.sve "Signature verification failed")) ↔
      ¬ ∃ c ∈ pySplitSpace "x",
        c = compute_signature "k" 5 (pyBodyBytes (.str "{}"))) :=
  ⟨rfl, by decide, rfl, by decide, rfl, by decide, by decide, by decide,
    c2_signature_match_iff none (some "k") none (.str "{}") wHeaders1 300 5
      "k" "5" "x" 5 rfl (by decide) rfl (by decide) rfl (by decide)
      (by decide) (by decide)⟩

/-- Witness for C3 at concrete inputs on both sides of the boundary. -/
theorem c3_freshness_window_witness :
    (pyOr none (some "k") = some "k") ∧ ("k" : String) ≠ "" ∧
    get_header wHeaders1 "Posthook-Timestamp" = some "5" ∧
    ("5" : String) ≠ "" ∧
    get_header wHeaders1 "Posthook-Signature" = some "x" ∧
    ("x" : String) ≠ "" ∧
    pyInt "5" = some 5 ∧
    ((((306 : Int) - 5).natAbs : Int) = 300 + 1) ∧
    (parse_delivery none (some "k") (.str "{}") wHeaders1 none 300 306 =
      .error (.sve (mkExpiredMsg ((306 : Int) - 5).natAbs 300))) ∧
    ((((305 : Int) - 5).natAbs : Int) = 300) ∧
    (parse_delivery none (some "k") (.str "{}") wHeaders1 none 300 305 ≠
      .error (.sve (mkExpiredMsg ((305 : Int) - 5).natAbs 300))) :=
  ⟨rfl, by decide, rfl, by decide, rfl, by decide, by decide, by decide,
    (c3_freshness_window none (some "k") none (.str "{}") wHeaders1 300
      "k" "5" "x" 5 rfl (by decide) rfl (by decide) rfl (by decide)
      (by decide)).2.2.1 306 (by decide),
    by decide,
    (c3_freshness_window none (some "k") none (.str "{}") wHeaders1 300
      "k" "5" "x" 5 rfl (by decide) rfl (by decide) rfl (by decide)
      (by decide)).2.1 305 (by decide)⟩

/-! ## C4: decoding happens only after verification -/

/-- C4: when no signature candidate matches, the pipeline fails with
`SignatureMismatch` whatever the body contains; a payload-decode failure can
only be reported on a run whose signature verification succeeded. -/
theorem c4_decode_only_after_verification :
    (∀ (env self_key argKey : Option String) (body : PyBody)
      (headers : Headers) (tol now : Int) (k s g : String) (t : Int),
      pyOr argKey self_key = some k → k ≠ "" →
      get_header headers "Posthook-Timestamp" = some s → s ≠ "" →
      get_header headers "Posthook-Signature" = some g → g ≠ "" →
      pyInt s = some t → (((now - t).natAbs : Nat) : Int) ≤ tol →
      (¬ ∃ c ∈ pySplitSpace g, c = compute_signature k t (pyBodyBytes body)) →
      parse_delivery env self_key body headers argKey tol now =
        .error (.sve "Signature verification failed")) ∧
    (∀ (env self_key argKey : Option String) (body : PyBody)
      (headers : Headers) (tol now : Int) (m : String),
      parse_delivery env self_key body headers argKey tol now =
        .error (.sve ("Failed to parse delivery payload: " ++ m)) →
      ∃ k s g t, pyOr argKey self_key = some k ∧ k ≠ "" ∧
        get_header headers "Posthook-Timestamp" = some s ∧ s ≠ "" ∧
        get_header headers "Posthook-Signature" = some g ∧ g ≠ "" ∧
        pyInt s = some t ∧ ¬ tol < (((now - t).natAbs : Nat) : Int) ∧
        (∃ c ∈ pySplitSpace g, c = compute_signature k t (pyBodyBytes body)) ∧
        pyJsonLoads (pyBodyBytes body) = .error m) := by
  constructor
  · intro env self_key argKey body headers tol now k s g t hk hk2 hts hs hsig
      hg hint hfresh hno
    have hcore : parse_delivery env self_key body headers argKey tol now =
        parse_delivery_core (some k) (get_header headers "Posthook-Id")
          (some s) (some g) (pyBodyBytes body) tol now := by
      unfold parse_delivery
      rw [hk, hts, hsig]
    rw [hcore]
    exact core_sig_mismatch k s g _ t _ tol now hk2 hs hg hint
      (not_lt.mpr hfresh) hno
  · intro env self_key argKey body headers tol now m h
    unfold parse_delivery at h
    exact core_decode_error_inv _ _ _ _ _ _ _ _ h

/-- A body that is not valid JSON, with a genuinely matching signature. -/
def wBody2 : PyBody := .str "nope"

/-- The true signature of `wBody2` for key `k` and timestamp `5`. -/
def wSig2 : String := compute_signature "k" 5 (pyBodyBytes wBody2)

def wHeaders2 : Headers :=
  [("Posthook-Timestamp", .scalar "5"), ("Posthook-Signature", .scalar wSig2)]

/-- Witness for C4: a mismatch run on one input and a decode-failure run on
another. -/
theorem c4_decode_only_after_verification_witness :
    ((pyOr none (some "k") = some "k") ∧ ("k" : String) ≠ "" ∧
     get_header wHeaders1 "Posthook-Timestamp" = some "5" ∧
     ("5" : String) ≠ "" ∧
     get_header wHeaders1 "Posthook-Signature" = some "x" ∧
     ("x" : String) ≠ "" ∧
     pyInt "5" = some 5 ∧ ((((5 : Int) - 5).natAbs : Int) ≤ 300) ∧
     (¬ ∃ c ∈ pySplitSpace "x",
        c = compute_signature "k" 5 (pyBodyBytes (.str "{}"))) ∧
     parse_delivery none (some "k") (.str "{}") wHeaders1 none 300 5 =
       .error (.sve "Signature verification failed")) ∧
    ((parse_delivery none (some "k") wBody2 wHeaders2 none 300 5 =
       .error (.sve ("Failed to parse delivery payload: " ++
         "Expecting value"))) ∧
     ∃ k s g t, pyOr none (some "k") = some k ∧ k ≠ "" ∧
       get_header wHeaders2 "Posthook-Timestamp" = some s ∧ s ≠ "" ∧
       get_header wHeaders2 "Posthook-Signature" = some g ∧ g ≠ "" ∧
       pyInt s = some t ∧ ¬ (300 : Int) < (((5 - t).natAbs : Nat) : Int) ∧
       (∃ c ∈ pySplitSpace g, c = compute_signature k t (pyBodyBytes wBody2)) ∧
       pyJsonLoads (pyBodyBytes wBody2) = .error "Expecting value") :=
  ⟨⟨rfl, by decide, rfl, by decide, rfl, by decide, by decide, by decide,
      by decide,
      c4_decode_only_after_verification.1 none (some "k") none (.str "{}")
        wHeaders1 300 5 "k" "5" "x" 5 rfl (by decide) rfl (by decide) rfl
        (by decide) (by decide) (by decide) (by decide)⟩,
    rfl,
    c4_decode_only_after_verification.2 none (some "k") none wBody2
      wHeaders2 300 5 "Expecting value" rfl⟩

/-! ## C5: key resolution (corrected — the environment is not consulted) -/

/-- C5 counterexample: with the environment variable set and neither argument
nor instance key, `parse_delivery` still fails with `NoSigningKey`: the
environment is not a fallback inside `parse_delivery`. -/
theorem c5_env_not_consulted_counterexample :
    parse_delivery (some "envkey") none (.str "{}") wHeaders1 none 300 5 =
      .error (.sve noKeyMsg) ∧
    (some "envkey" : Option String) ≠ none ∧ ("envkey" : String) ≠ "" :=
  ⟨rfl, by decide, by decide⟩

/-- C5 amended: the per-call key overrides the instance key and the instance
key is the only fallback inside `parse_delivery`; the environment value is
never consulted there (it is resolved only at construction time, as by
`create_signatures`); when both argument and instance key are falsy the call
fails with `NoSigningKey` whatever the headers contain. -/
theorem c5_key_resolution :
    (∀ (env env' self_key : Option String) (body : PyBody)
      (headers : Headers) (argKey : Option String) (tol now : Int),
      parse_delivery env self_key body headers argKey tol now =
        parse_delivery env' self_key body headers argKey tol now) ∧
    (∀ k : String, k ≠ "" → ∀ (env self_key self_key' : Option String)
      (body : PyBody) (headers : Headers) (tol now : Int),
      parse_delivery env self_key body headers (some k) tol now =
        parse_delivery env self_key' body headers (some k) tol now) ∧
    (∀ (env self_key : Option String) (body : PyBody) (headers : Headers)
      (tol now : Int),
      parse_delivery env self_key body headers none tol now =
        parse_delivery_core self_key (get_header headers "Posthook-Id")
          (get_header headers "Posthook-Timestamp")
          (get_header headers "Posthook-Signature") (pyBodyBytes body)
          tol now) ∧
    (∀ (env argKey self_key : Option String) (body : PyBody)
      (headers : Headers) (tol now : Int),
      (pyOr argKey self_key = none ∨ pyOr argKey self_key = some "") →
      parse_delivery env self_key body headers argKey tol now =
        .error (.sve noKeyMsg)) ∧
    (∀ k : String, k ≠ "" → create_signatures (some k) none = .ok ⟨some k⟩) := by
  refine ⟨fun _ _ _ _ _ _ _ _ => rfl, ?_, fun _ _ _ _ _ _ => rfl, ?_, ?_⟩
  · intro k hk env self_key self_key' body headers tol now
    unfold parse_delivery
    simp [pyOr, hk]
  · intro env argKey self_key body headers tol now h
    unfold parse_delivery
    exact core_noKey _ _ _ _ _ _ _ h
  · intro k hk
    simp [create_signatures, pyOr, hk]

/-- Witness for C5 at concrete inputs. -/
theorem c5_key_resolution_witness :
    (parse_delivery (some "e") (some "i") (.str "{}") wHeaders1 (some "k")
        300 5 =
      parse_delivery none (some "i") (.str "{}") wHeaders1 (some "k") 300 5) ∧
    (("k" : String) ≠ "") ∧
    (parse_delivery none (some "i") (.str "{}") wHeaders1 (some "k") 300 5 =
      parse_delivery none (some "j") (.str "{}") wHeaders1 (some "k") 300 5) ∧
    (pyOr none (some "") = some "") ∧
    (parse_delivery (some "envkey") (some "") (.str "{}") wHeaders1 none
        300 5 = .error (.sve noKeyMsg)) ∧
    (("ek" : String) ≠ "") ∧
    (create_signatures (some "ek") none = .ok ⟨some "ek"⟩) :=
  ⟨c5_key_resolution.1 (some "e") none (some "i") (.str "{}") wHeaders1
      (some "k") 300 5,
    by decide,
    c5_key_resolution.2.1 "k" (by decide) none (some "i") (some "j")
      (.str "{}") wHeaders1 300 5,
    by decide,
    c5_key_resolution.2.2.2.1 (some "envkey") none (some "") (.str "{}")
      wHeaders1 300 5 (Or.inr rfl),
    by decide,
    c5_key_resolution.2.2.2.2 "ek" (by decide)⟩

/-! ## C6: invalid-timestamp ordering (corrected — signature header first) -/

def c6Headers : Headers := [("Posthook-Timestamp", .scalar "not-a-number")]

/-- C6 counterexample: a non-numeric timestamp with the signature header
absent raises `MissingSignature`, not `InvalidTimestamp`: `int(...)` runs
only after the signature header has been extracted. -/
theorem c6_order_counterexample :
    parse_delivery none (some "k") (.str "{}") c6Headers none 300 5 =
      .error (.sve "Missing Posthook-Signature header") ∧
    pyInt "not-a-number" = none ∧
    ("Missing Posthook-Signature header" : String) ≠
      "Invalid Posthook-Timestamp: " ++ "not-a-number" :=
  ⟨rfl, by decide, by decide⟩

/-- C6 amended: a present but non-numeric timestamp fails with
`InvalidTimestamp` carrying the offending raw string, but only once the
signature header is present; with the signature header absent,
`MissingSignature` is raised instead. -/
theorem c6_invalid_timestamp :
    (∀ (env self_key argKey : Option String) (body : PyBody)
      (headers : Headers) (tol now : Int) (k s g : String),
      pyOr argKey self_key = some k → k ≠ "" →
      get_header headers "Posthook-Timestamp" = some s → s ≠ "" →
      get_header headers "Posthook-Signature" = some g → g ≠ "" →
      pyInt s = none →
      parse_delivery env self_key body headers argKey tol now =
        .error (.sve ("Invalid Posthook-Timestamp: " ++ s))) ∧
    (∀ (env self_key argKey : Option String) (body : PyBody)
      (headers : Headers) (tol now : Int) (k s : String),
      pyOr argKey self_key = some k → k ≠ "" →
      get_header headers "Posthook-Timestamp" = some s → s ≠ "" →
      get_header headers "Posthook-Signature" = none →
      parse_delivery env self_key body headers argKey tol now =
        .error (.sve "Missing Posthook-Signature header")) := by
  constructor
  · intro env self_key argKey body headers tol now k s g hk hk2 hts hs hsig
      hg hint
    unfold parse_delivery
    rw [hk, hts, hsig]
    exact core_invalidTs k s g _ _ tol now hk2 hs hg hint
  · intro env self_key argKey body headers tol now k s hk hk2 hts hs hsig
    unfold parse_delivery
    rw [hk, hts, hsig]
    exact core_missingSig k s _ none _ tol now hk2 hs (Or.inl rfl)

def c6Headers2 : Headers :=
  [("Posthook-Timestamp", .scalar "nan"), ("Posthook-Signature", .scalar "x")]

/-- Witness for C6 at concrete inputs. -/
theorem c6_invalid_timestamp_witness :
    ((pyOr none (some "k") = some "k") ∧ ("k" : String) ≠ "" ∧
     get_header c6Headers2 "Posthook-Timestamp" = some "nan" ∧
     ("nan" : String) ≠ "" ∧
     get_header c6Headers2 "Posthook-Signature" = some "x" ∧
     ("x" : String) ≠ "" ∧ pyInt "nan" = none ∧
     parse_delivery none (some "k") (.str "{}") c6Headers2 none 300 5 =
       .error (.sve ("Invalid Posthook-Timestamp: " ++ "nan"))) ∧
    (get_header c6Headers "Posthook-Timestamp" = some "not-a-number" ∧
     ("not-a-number" : String) ≠ "" ∧
     get_header c6Headers "Posthook-Signature" = none ∧
     parse_delivery none (some "k") (.str "{}") c6Headers none 300 5 =
       .error (.sve "Missing Posthook-Signature header")) :=
  ⟨⟨rfl, by decide, rfl, by decide, rfl, by decide, by decide,
      c6_invalid_timestamp.1 none (some "k") none (.str "{}") c6Headers2
        300 5 "k" "nan" "x" rfl (by decide) rfl (by decide) rfl (by decide)
        (by decide)⟩,
    ⟨rfl, by decide, rfl,
      c6_invalid_timestamp.2 none (some "k") none (.str "{}") c6Headers
        300 5 "k" "not-a-number" rfl (by decide) rfl (by decide) rfl⟩⟩

/-! ## C7: error kinds (corrected — construction-step exceptions escape) -/

/-- A verified delivery whose payload carries a malformed date string. -/
def wBody3 : PyBody := .str "\x7b\"postAt\": \"bad\"\x7d"

/-- The true signature of `wBody3` for key `k` and timestamp `5`. -/
def wSig3 : String := compute_signature "k" 5 (pyBodyBytes wBody3)

def wHeaders3 : Headers :=
  [("Posthook-Timestamp", .scalar "5"), ("Posthook-Signature", .scalar wSig3)]

/-- C7 counterexample: on a verified delivery whose payload has a malformed
date string, the `ValueError` from `datetime.fromisoformat` escapes
`parse_delivery`: the result is neither a `Delivery` nor a
`SignatureVerificationError`. -/
theorem c7_counterexample :
    parse_delivery none (some "k") wBody3 wHeaders3 none 300 5 =
      .error (.valueError ("Invalid isoformat string: " ++ "bad")) ∧
    ∀ m, PyErr.valueError ("Invalid isoformat string: " ++ "bad") ≠
      .sve m :=
  ⟨rfl, fun _ h => PyErr.noConfusion h⟩

/-- C7 amended: every failure raised up to and including payload decoding is
a `SignatureVerificationError`; any other exception escapes only from the
`Delivery`-construction step (payload field extraction and date parsing), on
a run whose signature had already verified and whose payload had decoded. -/
theorem c7_single_error_kind :
    ∀ (env self_key argKey : Option String) (body : PyBody)
      (headers : Headers) (tol now : Int) (e : PyErr),
      parse_delivery env self_key body headers argKey tol now = .error e →
      (∀ mm, e ≠ .sve mm) →
      ∃ k s g t payload, pyOr argKey self_key = some k ∧ k ≠ "" ∧
        get_header headers "Posthook-Timestamp" = some s ∧ s ≠ "" ∧
        get_header headers "Posthook-Signature" = some g ∧ g ≠ "" ∧
        pyInt s = some t ∧ ¬ tol < (((now - t).natAbs : Nat) : Int) ∧
        (∃ c ∈ pySplitSpace g, c = compute_signature k t (pyBodyBytes body)) ∧
        pyJsonLoads (pyBodyBytes body) = .ok payload ∧
        build_delivery ((get_header headers "Posthook-Id").getD "") t
          (pyBodyBytes body) payload = .error e := by
  intro env self_key argKey body headers tol now e h hnot
  unfold parse_delivery at h
  exact core_non_sve_inv _ _ _ _ _ _ _ _ h hnot

/-- Witness for C7 at the concrete malformed-date input. -/
theorem c7_single_error_kind_witness :
    (parse_delivery none (some "k") wBody3 wHeaders3 none 300 5 =
      .error (.valueError ("Invalid isoformat string: " ++ "bad"))) ∧
    (∀ mm, PyErr.valueError ("Invalid isoformat string: " ++ "bad") ≠
      .sve mm) ∧
    ∃ k s g t payload, pyOr none (some "k") = some k ∧ k ≠ "" ∧
      get_header wHeaders3 "Posthook-Timestamp" = some s ∧ s ≠ "" ∧
      get_header wHeaders3 "Posthook-Signature" = some g ∧ g ≠ "" ∧
      pyInt s = some t ∧ ¬ (300 : Int) < (((5 - t).natAbs : Nat) : Int) ∧
      (∃ c ∈ pySplitSpace g, c = compute_signature k t (pyBodyBytes wBody3)) ∧
      pyJsonLoads (pyBodyBytes wBody3) = .ok payload ∧
      build_delivery ((get_header wHeaders3 "Posthook-Id").getD "") t
        (pyBodyBytes wBody3) payload =
        .error (.valueError ("Invalid isoformat string: " ++ "bad")) :=
  ⟨rfl, fun _ h => PyErr.noConfusion h,
    c7_single_error_kind none (some "k") none wBody3 wHeaders3 300 5
      (.valueError ("Invalid isoformat string: " ++ "bad")) rfl
      (fun _ h => PyErr.noConfusion h)⟩

/-! ## C8: payload date parsing -/

/-- C8: an empty payload date string parses to the minimum-timestamp sentinel
(`datetime.min` with the UTC offset) rather than failing, and a string ending
in `Z` is parsed exactly as the same string with the `Z` replaced by
`+00:00`. -/
theorem c8_parse_dt_empty_and_z :
    (parse_dt (.str "") = .ok datetimeMinUtc ∧
      datetimeMinUtc = ⟨1, 1, 1, 0, 0, 0, 0, some 0⟩) ∧
    (∀ s : String, s ≠ "" → s.data.getLast? = some 'Z' →
      parse_dt (.str s) =
        fromisoformat (String.mk s.data.dropLast ++ "+00:00")) := by
  refine ⟨⟨rfl, rfl⟩, ?_⟩
  intro s hne hz
  have ht : pyTruthy (.str s) = true := by
    simp [pyTruthy, hne]
  unfold parse_dt
  rw [ht]
  simp [hz]

/-- Witness for C8 at a concrete `Z`-suffixed string. -/
theorem c8_parse_dt_empty_and_z_witness :
    (("2020-01-02T03:04:05Z" : String) ≠ "") ∧
    (("2020-01-02T03:04:05Z" : String).data.getLast? = some 'Z') ∧
    (parse_dt (.str "2020-01-02T03:04:05Z") =
      fromisoformat (String.mk ("2020-01-02T03:04:05Z" : String).data.dropLast
        ++ "+00:00")) :=
  ⟨by decide, by decide,
    c8_parse_dt_empty_and_z.2 "2020-01-02T03:04:05Z" (by decide) (by decide)⟩

/-- Sanity check: the `Z`-normalized string parses to the expected instant
with a UTC offset. -/
theorem c8_sanity_value :
    parse_dt (.str "2020-01-02T03:04:05Z") =
      .ok ⟨2020, 1, 2, 3, 4, 5, 0, some 0⟩ := rfl

/-! ## C9: header lookup (corrected — distinct-cased duplicates differ) -/

/-- C9 counterexample: with two distinct-cased keys present, different
casings of the name resolve to different values, so "any casing resolves to
the same value" fails on such a mapping. -/
theorem c9_counterexample :
    get_header [("X-A", .scalar "1"), ("x-a", .scalar "2")] "x-a" =
      some "2" ∧
    get_header [("X-A", .scalar "1"), ("x-a", .scalar "2")] "X-A" =
      some "1" ∧
    (("2" : String) ≠ "1") ∧ asciiLower "x-a" = asciiLower "X-A" :=
  ⟨rfl, rfl, by decide, rfl⟩

lemma lookupLower_unique (hd : Headers) (k0 : String) (v0 : HVal)
    (hmem : (k0, v0) ∈ hd)
    (huniq : ∀ q ∈ hd, asciiLower q.1 = asciiLower k0 → q = (k0, v0)) :
    lookupLower hd (asciiLower k0) = extractVal v0 := by
  induction hd with
  | nil => cases hmem
  | cons p rest ih =>
    obtain ⟨k, v⟩ := p
    by_cases hl : asciiLower k = asciiLower k0
    · have hp := huniq (k, v) (List.mem_cons_self _ _) hl
      injection hp with h1 h2
      subst h1
      subst h2
      simp [lookupLower, hl]
    · have hmem' : (k0, v0) ∈ rest := by
        cases hmem with
        | head => exact absurd rfl hl
        | tail _ hmem' => exact hmem'
      simp only [lookupLower, hl, if_false]
      exact ih hmem' (fun q hq hlq => huniq q (List.mem_cons_of_mem _ hq) hlq)

lemma lookupLower_none (hd : Headers) (low : String)
    (hnone : ∀ q ∈ hd, asciiLower q.1 ≠ low) :
    lookupLower hd low = none := by
  induction hd with
  | nil => rfl
  | cons p rest ih =>
    obtain ⟨k, v⟩ := p
    have hk := hnone (k, v) (List.mem_cons_self _ _)
    simp only [lookupLower, hk, if_false]
    exact ih (fun q hq => hnone q (List.mem_cons_of_mem _ hq))

/-- C9 amended: exact-case lookup takes precedence; when at most one entry of
the mapping matches the name case-insensitively, every casing of the name
resolves to that entry's value; a one-element list value is unwrapped to its
scalar element; an absent header yields `none` (the lookup is total). -/
theorem c9_header_lookup :
    (∀ (hd : Headers) (name : String) (p : String × HVal),
      hd.find? (fun q => q.1 == name) = some p →
      get_header hd name = extractVal p.2) ∧
    (∀ (hd : Headers) (k0 : String) (v0 : HVal),
      (k0, v0) ∈ hd →
      (∀ q ∈ hd, asciiLower q.1 = asciiLower k0 → q = (k0, v0)) →
      ∀ name : String, asciiLower name = asciiLower k0 →
        get_header hd name = extractVal v0) ∧
    (∀ s : String, extractVal (.vlist [s]) = some s) ∧
    (∀ (hd : Headers) (name : String),
      (∀ q ∈ hd, asciiLower q.1 ≠ asciiLower name) →
      get_header hd name = none) := by
  refine ⟨?_, ?_, fun _ => rfl, ?_⟩
  · intro hd name p hf
    unfold get_header
    rw [hf]
  · intro hd k0 v0 hmem huniq name hname
    unfold get_header
    cases hf : hd.find? (fun q => q.1 == name) with
    | some p =>
      have hp : p ∈ hd := List.mem_of_find?_eq_some hf
      have hpn : p.1 = name := by
        have := List.find?_some hf
        simpa using this
      have hpe : p = (k0, v0) := huniq p hp (by rw [hpn, hname])
      rw [hpe]
    | none =>
      rw [hname]
      exact lookupLower_unique hd k0 v0 hmem huniq
  · intro hd name hnone
    unfold get_header
    cases hf : hd.find? (fun q => q.1 == name) with
    | some p =>
      exfalso
      have hp : p ∈ hd := List.mem_of_find?_eq_some hf
      have hpn : p.1 = name := by
        have := List.find?_some hf
        simpa using this
      exact hnone p hp (by rw [hpn])
    | none => exact lookupLower_none hd _ hnone

def c9H : Headers := [("Posthook-Id", .vlist ["h"])]

/-- Witness for C9 at concrete mappings. -/
theorem c9_header_lookup_witness :
    (wHeaders1.find? (fun q => q.1 == "Posthook-Timestamp") =
       some ("Posthook-Timestamp", .scalar "5") ∧
     get_header wHeaders1 "Posthook-Timestamp" =
       extractVal (HVal.scalar "5")) ∧
    ((("Posthook-Id", HVal.vlist ["h"]) ∈ c9H) ∧
     (∀ q ∈ c9H, asciiLower q.1 = asciiLower "Posthook-Id" →
        q = ("Posthook-Id", HVal.vlist ["h"])) ∧
     (asciiLower "POSTHOOK-ID" = asciiLower "Posthook-Id") ∧
     get_header c9H "POSTHOOK-ID" = extractVal (HVal.vlist ["h"])) ∧
    (extractVal (.vlist ["h"]) = some "h") ∧
    ((∀ q ∈ wHeaders1, asciiLower q.1 ≠ asciiLower "Posthook-Id") ∧
     get_header wHeaders1 "Posthook-Id" = none) :=
  ⟨⟨by decide,
      c9_header_lookup.1 wHeaders1 "Posthook-Timestamp"
        ("Posthook-Timestamp", .scalar "5") (by decide)⟩,
    ⟨by decide, by decide, by decide,
      c9_header_lookup.2.1 c9H "Posthook-Id" (.vlist ["h"]) (by decide)
        (by decide) "POSTHOOK-ID" (by decide)⟩,
    c9_header_lookup.2.2.1 "h",
    ⟨by decide,
      c9_header_lookup.2.2.2 wHeaders1 "Posthook-Id" (by decide)⟩⟩

/-! ## C10: optional identifier, mandatory timestamp and signature -/

lemma build_delivery_hook_id (hid hid' : String) (t : Int) (bb : List Nat)
    (payload : Json) (d : Delivery)
    (h : build_delivery hid t bb payload = .ok d) :
    build_delivery hid' t bb payload = .ok {d with hook_id := hid'} := by
  unfold build_delivery at h ⊢
  repeat' split at h
  all_goals try exact Except.noConfusion h
  injection h with h1
  subst h1
  simp_all

lemma core_hook_id (k? : Option String) (idv idv' tsv sigv : Option String)
    (bb : List Nat) (tol now : Int) (d : Delivery)
    (h : parse_delivery_core k? idv tsv sigv bb tol now = .ok d) :
    parse_delivery_core k? idv' tsv sigv bb tol now =
      .ok {d with hook_id := idv'.getD ""} := by
  unfold parse_delivery_core at h
  repeat' (first | (split at h) | (dsimp only at h))
  all_goals try exact Except.noConfusion h
  rename_i x1 tstamp hint x2 payload heqL hnfresh hnv
  obtain ⟨c, hcmem, hsc⟩ := List.any_eq_true.mp (bool_of_not_not hnv)
  rw [core_verified _ _ _ idv' tstamp bb tol now (by assumption)
    (by assumption) (by assumption) hint hnfresh
    ⟨c, hcmem, safe_compare_iff.mp hsc⟩]
  rw [heqL]
  exact build_delivery_hook_id _ _ _ _ _ _ h

/-- C10: on an otherwise-valid call, removing the `Posthook-Id` header still
succeeds and yields `hook_id = ""`; a missing `Posthook-Timestamp` or
`Posthook-Signature` header is fatal with the corresponding error. -/
theorem c10_optional_id_mandatory_ts_sig :
    (∀ (env self_key argKey : Option String) (body : PyBody)
      (hd hd' : Headers) (tol now : Int) (d : Delivery),
      parse_delivery env self_key body hd argKey tol now = .ok d →
      get_header hd' "Posthook-Timestamp" =
        get_header hd "Posthook-Timestamp" →
      get_header hd' "Posthook-Signature" =
        get_header hd "Posthook-Signature" →
      get_header hd' "Posthook-Id" = none →
      parse_delivery env self_key body hd' argKey tol now =
        .ok {d with hook_id := ""}) ∧
    (∀ (env self_key argKey : Option String) (body : PyBody) (hd : Headers)
      (tol now : Int) (k : String),
      pyOr argKey self_key = some k → k ≠ "" →
      get_header hd "Posthook-Timestamp" = none →
      parse_delivery env self_key body hd argKey tol now =
        .error (.sve "Missing Posthook-Timestamp header")) ∧
    (∀ (env self_key argKey : Option String) (body : PyBody) (hd : Headers)
      (tol now : Int) (k s : String),
      pyOr argKey self_key = some k → k ≠ "" →
      get_header hd "Posthook-Timestamp" = some s → s ≠ "" →
      get_header hd "Posthook-Signature" = none →
      parse_delivery env self_key body hd argKey tol now =
        .error (.sve "Missing Posthook-Signature header")) := by
  refine ⟨?_, ?_, ?_⟩
  · intro env self_key argKey body hd hd' tol now d h hts hsig hid
    unfold parse_delivery at h ⊢
    rw [hts, hsig, hid]
    have := core_hook_id (pyOr argKey self_key)
      (get_header hd "Posthook-Id") none
      (get_header hd "Posthook-Timestamp")
      (get_header hd "Posthook-Signature") (pyBodyBytes body) tol now d h
    simpa using this
  · intro env self_key argKey body hd tol now k hk hk2 hts
    unfold parse_delivery
    rw [hk, hts]
    exact core_missingTs k _ _ none _ tol now hk2 (Or.inl rfl)
  · intro env self_key argKey body hd tol now k s hk hk2 hts hs hsig
    unfold parse_delivery
    rw [hk, hts, hsig]
    exact core_missingSig k s _ none _ tol now hk2 hs (Or.inl rfl)

/-- A well-formed delivery body used for the C10 witness. -/
def wBody4 : PyBody := .str "\x7b\"path\": \"/t\"\x7d"

/-- The true signature of `wBody4` for key `k` and timestamp `5`. -/
def wSig4 : String := compute_signature "k" 5 (pyBodyBytes wBody4)

def wHeadersId : Headers :=
  [("Posthook-Id", .scalar "h1"), ("Posthook-Timestamp", .scalar "5"),
   ("Posthook-Signature", .scalar wSig4)]

def wHeadersNoId : Headers :=
  [("Posthook-Timestamp", .scalar "5"), ("Posthook-Signature", .scalar wSig4)]

def wDelivery4 : Delivery :=
  ⟨"h1", 5, .str "/t", .null, pyBodyBytes wBody4,
    datetimeMinUtc, datetimeMinUtc, datetimeMinUtc, datetimeMinUtc⟩

/-- Witness for C10: a concrete successful run with and without the
identifier header, plus fatal missing-header runs. -/
theorem c10_optional_id_mandatory_ts_sig_witness :
    (parse_delivery none (some "k") wBody4 wHeadersId none 300 5 =
      .ok wDelivery4) ∧
    (get_header wHeadersNoId "Posthook-Timestamp" =
      get_header wHeadersId "Posthook-Timestamp") ∧
    (get_header wHeadersNoId "Posthook-Signature" =
      get_header wHeadersId "Posthook-Signature") ∧
    (get_header wHeadersNoId "Posthook-Id" = none) ∧
    (parse_delivery none (some "k") wBody4 wHeadersNoId none 300 5 =
      .ok {wDelivery4 with hook_id := ""}) ∧
    (pyOr none (some "k") = some "k") ∧ (("k" : String) ≠ "") ∧
    (get_header ([] : Headers) "Posthook-Timestamp" = none) ∧
    (parse_delivery none (some "k") wBody4 [] none 300 5 =
      .error (.sve "Missing Posthook-Timestamp header")) ∧
    (get_header c6Headers "Posthook-Signature" = none) ∧
    (parse_delivery none (some "k") wBody4 c6Headers none 300 5 =
      .error (.sve "Missing Posthook-Signature header")) :=
  ⟨rfl, rfl, rfl, rfl,
    c10_optional_id_mandatory_ts_sig.1 none (some "k") none wBody4
      wHeadersId wHeadersNoId 300 5 wDelivery4 rfl rfl rfl rfl,
    rfl, by decide, rfl,
    c10_optional_id_mandatory_ts_sig.2.1 none (some "k") none wBody4 []
      300 5 "k" rfl (by decide) rfl,
    rfl,
    c10_optional_id_mandatory_ts_sig.2.2 none (some "k") none wBody4
      c6Headers 300 5 "k" "not-a-number" rfl (by decide) rfl (by decide) rfl⟩
